import Mathlib

/-!
Verification of the Age-of-Empires build-order simulator (`simulator.py`).

The simulator consumes a chromosome (a list of integer genes), advances a
mutable `GameState` in discrete ticks, and returns a fitness score plus a
per-tick trace.  Python floats are modelled as exact rationals (`ℚ`),
Python ints as `ℤ`, dictionaries as association lists with `get`-style
defaulted lookup, and the mutation of `GameState` as explicit state passing.
The chromosome decode error (`raise ValueError`) is modelled with `Except`.
-/

/-- Python `int(...)` applied to a rational: truncation toward zero.
For a non-negative numerator and positive denominator every integer-division
convention agrees, so the value is convention independent. -/
def pyInt (q : ℚ) : ℤ :=
  if q < 0 then -((-q).num / ((-q).den : ℤ)) else q.num / (q.den : ℤ)

/-- Floor of a rational as an integer (numerator euclidean-divided by the
positive denominator). -/
def qfloor (q : ℚ) : ℤ := Int.ediv q.num (q.den : ℤ)

/-- Python `round(x, 2)`: round to two decimal places, ties to even. -/
def round2 (q : ℚ) : ℚ :=
  let n := q * 100
  let f : ℤ := qfloor n
  let frac := n - (f : ℚ)
  let r : ℤ :=
    if frac < 1 / 2 then f
    else if 1 / 2 < frac then f + 1
    else if f % 2 = 0 then f else f + 1
  (r : ℚ) / 100

/-- `d.get(k, default)` on a string-keyed dictionary of numbers. -/
def dget (m : List (String × ℚ)) (k : String) (d : ℚ) : ℚ :=
  (m.lookup k).getD d

/-- `constants.actions.get(name, {})`: lookup of one action's parameter
dictionary, defaulting to the empty dictionary. -/
def dgetA (m : List (String × List (String × ℚ))) (k : String) : List (String × ℚ) :=
  (m.lookup k).getD []

/-- `GameConstants` (simulator.py lines 25-33): balance data consumed every
tick.  All numeric values have been coerced by `from_mapping`. -/
structure GameConstants where
  tick_seconds : ℚ
  gather_rates : List (String × ℚ)
  actions : List (String × List (String × ℚ))
  initial_state : List (String × ℚ)
  penalties : List (String × ℚ)
  fitness_weights : List (String × ℚ)
deriving DecidableEq

/-- `GameState` (simulator.py lines 57-71): the mutable simulation snapshot. -/
structure GameState where
  time : ℚ
  villagers : ℤ
  idle_villagers : ℤ
  food_workers : ℤ
  wood_workers : ℤ
  population_cap : ℤ
  food : ℚ
  wood : ℚ
  train_progress : Option ℚ := none
  house_progress : Option ℚ := none
  tc_idle_time : ℚ := 0
  pop_block_time : ℚ := 0
  events : List String := []
deriving DecidableEq

/-- `GameState.from_constants` (simulator.py lines 73-90). -/
def GameState.from_constants (constants : GameConstants) : GameState :=
  let initial := constants.initial_state
  let villagers := pyInt (dget initial "villagers" 0)
  let idle := pyInt (dget initial "idle_villagers" (villagers : ℚ))
  let food := dget initial "food" 0
  let wood := dget initial "wood" 0
  let pop_cap := pyInt (dget initial "population_cap" ((max villagers 4 : ℤ) : ℚ))
  { time := 0
    villagers := villagers
    idle_villagers := idle
    food_workers := pyInt (dget initial "food_workers" 0)
    wood_workers := pyInt (dget initial "wood_workers" 0)
    population_cap := pop_cap
    food := food
    wood := wood }

/-- `apply_action` (simulator.py lines 136-203).  Returns the new state
together with `(success, reason)`; `state.events.clear()` at entry is the
`events := []` update on the first line. -/
def apply_action (state : GameState) (action : String) (target : Option String)
    (constants : GameConstants) : GameState × Bool × String :=
  let st : GameState := { state with events := [] }
  let action_data := constants.actions
  if action = "noop" then
    (st, true, "")
  else if action = "train_villager" then
    let data := dgetA action_data "train_villager"
    let food_cost := dget data "food_cost" 0
    let train_time := dget data "train_time" 0
    match st.train_progress with
    | some _ => (st, false, "town center busy")
    | none =>
      if st.food < food_cost then (st, false, "not enough food")
      else if st.population_cap ≤ st.villagers then (st, false, "population capped")
      else ({ st with food := st.food - food_cost, train_progress := some train_time },
            true, "queued villager")
  else if action = "assign_food" then
    if st.idle_villagers ≤ 0 then (st, false, "no idle villager")
    else ({ st with
              idle_villagers := st.idle_villagers - 1
              food_workers := st.food_workers + 1 }, true, "assigned to food")
  else if action = "assign_wood" then
    if st.idle_villagers ≤ 0 then (st, false, "no idle villager")
    else ({ st with
              idle_villagers := st.idle_villagers - 1
              wood_workers := st.wood_workers + 1 }, true, "assigned to wood")
  else if action = "idle_one" then
    let pool : String :=
      match target with
      | some t => if t = "" then "food" else t
      | none => "food"
    if pool = "wood" ∧ 0 < st.wood_workers then
      ({ st with
           wood_workers := st.wood_workers - 1
           idle_villagers := st.idle_villagers + 1 }, true, "wood worker idled")
    else if 0 < st.food_workers then
      ({ st with
           food_workers := st.food_workers - 1
           idle_villagers := st.idle_villagers + 1 }, true, "food worker idled")
    else (st, false, "no worker on target resource")
  else if action = "build_house" then
    let data := dgetA action_data "build_house"
    let wood_cost := dget data "wood_cost" 0
    let build_time := dget data "build_time" 0
    let pop_increase := pyInt (dget data "pop_increase" 0)
    match st.house_progress with
    | some _ => (st, false, "another house in progress")
    | none =>
      if st.idle_villagers ≤ 0 then (st, false, "no idle villager")
      else if st.wood < wood_cost then (st, false, "not enough wood")
      else ({ st with
                wood := st.wood - wood_cost
                idle_villagers := st.idle_villagers - 1
                house_progress := some build_time
                events := st.events ++ ["house(+" ++ toString pop_increase ++ ") queued"] },
            true, "house queued")
  else
    (st, false, "unknown action '" ++ action ++ "'")

/-- `progress_builds` (simulator.py lines 206-234): advance the training and
construction timers by one tick, then accrue population-block time. -/
def progress_builds (state : GameState) (constants : GameConstants) : GameState :=
  let dt := constants.tick_seconds
  let action_data := constants.actions
  let s1 : GameState :=
    match state.train_progress with
    | some t =>
      let t := t - dt
      if t ≤ 0 then
        { state with
            train_progress := none
            villagers := state.villagers + 1
            idle_villagers := state.idle_villagers + 1
            events := state.events ++ ["villager trained"] }
      else { state with train_progress := some t }
    | none => { state with tc_idle_time := state.tc_idle_time + dt }
  let s2 : GameState :=
    match s1.house_progress with
    | some h =>
      let h := h - dt
      if h ≤ 0 then
        let pop_increase := pyInt (dget (dgetA action_data "build_house") "pop_increase" 0)
        { s1 with
            house_progress := none
            population_cap := s1.population_cap + pop_increase
            idle_villagers := s1.idle_villagers + 1
            events := s1.events ++ ["house completed"] }
      else { s1 with house_progress := some h }
    | none => s1
  if s2.population_cap ≤ s2.villagers then
    { s2 with pop_block_time := s2.pop_block_time + dt }
  else s2

/-- `gather_resources` (simulator.py lines 237-243): accrue passive income,
returning the per-resource income for the trace. -/
def gather_resources (state : GameState) (constants : GameConstants) :
    GameState × ℚ × ℚ :=
  let dt := constants.tick_seconds
  let food_income := (state.food_workers : ℚ) * dget constants.gather_rates "food" 0 * dt
  let wood_income := (state.wood_workers : ℚ) * dget constants.gather_rates "wood" 0 * dt
  ({ state with food := state.food + food_income, wood := state.wood + wood_income },
   food_income, wood_income)

/-- `ACTION_LOOKUP` (simulator.py lines 246-254): the fixed gene decode
table. -/
def ACTION_LOOKUP (g : ℤ) : Option (String × Option String) :=
  if g = 0 then some ("noop", none)
  else if g = 1 then some ("train_villager", none)
  else if g = 2 then some ("assign_food", none)
  else if g = 3 then some ("assign_wood", none)
  else if g = 4 then some ("idle_one", some "food")
  else if g = 5 then some ("idle_one", some "wood")
  else if g = 6 then some ("build_house", none)
  else none

/-- One record of the per-tick trace (simulator.py lines 289-306) or the
terminal summary record (lines 321-334). -/
inductive TraceEntry where
  | step (tick : ℕ) (time : ℚ) (action : String) (success : Bool) (reason : String)
      (food wood : ℚ) (villagers idle food_workers wood_workers population_cap : ℤ)
      (income_food income_wood : ℚ) (events : List String)
  | summary (tick : ℕ) (time : ℚ) (villagers : ℤ) (food wood : ℚ)
      (population_cap : ℤ) (tc_idle_time pop_block_time : ℚ)
deriving DecidableEq

/-- The fitness expression of `simulate` (simulator.py lines 313-319). -/
def fitnessOf (state : GameState) (constants : GameConstants) : ℚ :=
  dget constants.fitness_weights "villagers" 0 * (state.villagers : ℚ)
  + dget constants.fitness_weights "food" 0 * state.food
  + dget constants.fitness_weights "wood" 0 * state.wood
  - dget constants.penalties "tc_idle_per_sec" 0 * state.tc_idle_time
  - dget constants.penalties "pop_block_per_sec" 0 * state.pop_block_time

/-- The tick loop of `simulate` (simulator.py lines 279-308): decode the gene,
gather, progress, apply, append the trace record, advance `time`.  An
out-of-table gene raises `ValueError`, modelled as `Except.error`. -/
def runTicks (constants : GameConstants) :
    List ℤ → ℕ → GameState → List TraceEntry →
    Except String (GameState × List TraceEntry)
  | [], _, s, tr => .ok (s, tr)
  | g :: gs, tick, s, tr =>
    match ACTION_LOOKUP g with
    | none => .error ("unknown action index '" ++ toString g ++ "'")
    | some (gene_action, target) =>
      let gathered := gather_resources s constants
      let s2 := progress_builds gathered.1 constants
      let applied := apply_action s2 gene_action target constants
      let s3 := applied.1
      let entry := TraceEntry.step tick s3.time gene_action applied.2.1 applied.2.2
        (round2 s3.food) (round2 s3.wood) s3.villagers s3.idle_villagers
        s3.food_workers s3.wood_workers s3.population_cap
        (round2 gathered.2.1) (round2 gathered.2.2) s3.events
      runTicks constants gs (tick + 1)
        { s3 with time := s3.time + constants.tick_seconds } (tr ++ [entry])

/-- `simulate` (simulator.py lines 257-336), with the constants passed as a
value (the file read of `load_constants` is outside the engine). -/
def simulate (chromosome : List ℤ) (constants : GameConstants) :
    Except String (ℚ × List TraceEntry) :=
  match runTicks constants chromosome 0 (GameState.from_constants constants) [] with
  | .error e => .error e
  | .ok (s, tr) =>
    let fitness := fitnessOf s constants
    let tr := tr ++ [TraceEntry.summary tr.length s.time s.villagers
      (round2 s.food) (round2 s.wood) s.population_cap s.tc_idle_time s.pop_block_time]
    .ok (fitness, tr)

/-- `1` while a house is under construction, else `0`: the villager consumed
by a successful `build_house` until the house completes. -/
def houseBit (s : GameState) : ℤ := if s.house_progress = none then 0 else 1

/-- Worker accounting: every villager is idle, on food, on wood, or inside
the house under construction. -/
def balanced (s : GameState) : Prop :=
  s.villagers = s.idle_villagers + s.food_workers + s.wood_workers + houseBit s

instance (s : GameState) : Decidable (balanced s) := by
  unfold balanced; infer_instance

/-- Boolean form of `balanced`, for checking a whole list of states. -/
def balancedB (s : GameState) : Bool :=
  s.villagers == s.idle_villagers + s.food_workers + s.wood_workers + houseBit s

/-- Population-cap invariant: the cap is respected, strictly so while a
training order is in flight (its completion will add one villager). -/
def capInv (s : GameState) : Prop :=
  s.villagers ≤ s.population_cap ∧
  (s.train_progress ≠ none → s.villagers + 1 ≤ s.population_cap)

/-- Whether the in-flight training order would complete on the next
`progress_builds` tick. -/
def trainCompleting (s : GameState) (constants : GameConstants) : Bool :=
  match s.train_progress with
  | some t => decide (t - constants.tick_seconds ≤ 0)
  | none => false

/-- Whether the in-flight house would complete on the next `progress_builds`
tick. -/
def houseCompleting (s : GameState) (constants : GameConstants) : Bool :=
  match s.house_progress with
  | some h => decide (h - constants.tick_seconds ≤ 0)
  | none => false

/-- The states a run passes through, recorded right before and right after
each tick's `apply_action` (the same per-tick pipeline as `runTicks`, with
the genes already decoded to action/target pairs). -/
def runStates (constants : GameConstants) :
    List (String × Option String) → GameState → List GameState
  | [], _ => []
  | (a, t) :: rest, s =>
    let pre := progress_builds (gather_resources s constants).1 constants
    let post := (apply_action pre a t constants).1
    pre :: post ::
      runStates constants rest { post with time := post.time + constants.tick_seconds }

/-- The trace of a simulation result (empty on an aborted run). -/
def traceOf (r : Except String (ℚ × List TraceEntry)) : List TraceEntry :=
  match r with
  | .ok (_, tr) => tr
  | .error _ => []

/-- The events recorded in a trace entry (the summary record has none). -/
def entryEvents : TraceEntry → List String
  | .step _ _ _ _ _ _ _ _ _ _ _ _ _ _ evs => evs
  | .summary _ _ _ _ _ _ _ _ => []

/-- The population cap recorded in a trace entry. -/
def entryPopCap : TraceEntry → ℤ
  | .step _ _ _ _ _ _ _ _ _ _ _ cap _ _ _ => cap
  | .summary _ _ _ _ _ cap _ _ => cap

/-- The idle-villager count recorded in a per-tick trace entry. -/
def entryIdle : TraceEntry → ℤ
  | .step _ _ _ _ _ _ _ _ idle _ _ _ _ _ _ => idle
  | .summary _ _ _ _ _ _ _ _ => 0

/-- The recorded villager count never exceeds the recorded population cap. -/
def entryCapOKb : TraceEntry → Bool
  | .step _ _ _ _ _ _ _ v _ _ _ cap _ _ _ => decide (v ≤ cap)
  | .summary _ _ v _ _ cap _ _ => decide (v ≤ cap)

/-- The spec's scenario constants: 10-second ticks, gather rates 1/1, the
`train_villager` and `build_house` actions, and the fitness weights and
penalties of the fitness scenario. -/
def specConstants : GameConstants :=
  { tick_seconds := 10
    gather_rates := [("food", 1), ("wood", 1)]
    actions := [("train_villager", [("food_cost", 50), ("train_time", 20)]),
      ("build_house", [("wood_cost", 30), ("build_time", 10), ("pop_increase", 4)])]
    initial_state := [("villagers", 1), ("idle_villagers", 1), ("food", 50),
      ("wood", 30), ("population_cap", 4)]
    penalties := [("tc_idle_per_sec", 1 / 10), ("pop_block_per_sec", 1 / 2)]
    fitness_weights := [("villagers", 1), ("food", 1 / 100), ("wood", 1 / 100)] }

/-- Constants whose `build_house` has a negative `pop_increase`, with the
initial population cap above the starting villager count. -/
def negHouseConstants : GameConstants :=
  { tick_seconds := 10
    gather_rates := [("food", 1), ("wood", 1)]
    actions := [("train_villager", [("food_cost", 50), ("train_time", 20)]),
      ("build_house", [("wood_cost", 30), ("build_time", 10), ("pop_increase", -4)])]
    initial_state := [("villagers", 4), ("idle_villagers", 1), ("food", 0),
      ("wood", 30), ("population_cap", 5)]
    penalties := [("tc_idle_per_sec", 1 / 10), ("pop_block_per_sec", 1 / 2)]
    fitness_weights := [("villagers", 1), ("food", 1 / 100), ("wood", 1 / 100)] }

/-- The final state of the spec's fitness scenario. -/
def fitScenarioState : GameState :=
  { time := 0, villagers := 5, idle_villagers := 5, food_workers := 0
    wood_workers := 0, population_cap := 10, food := 120, wood := 40
    tc_idle_time := 30, pop_block_time := 0 }

/-- A state whose training timer equals the tick length while a house is
about to complete in the same tick. -/
def bothCompleteState : GameState :=
  { time := 0, villagers := 3, idle_villagers := 0, food_workers := 2
    wood_workers := 0, population_cap := 10, food := 0, wood := 0
    train_progress := some 10, house_progress := some 5 }

/-- A state with a training order in flight and ample food and cap room. -/
def trainBusyState : GameState :=
  { time := 0, villagers := 2, idle_villagers := 2, food_workers := 0
    wood_workers := 0, population_cap := 20, food := 1000, wood := 0
    train_progress := some 5 }

/-- The state reached by tick 0 of `simulate [6] specConstants`, right after
`apply_action` queues the house. -/
def c1HouseState : GameState :=
  (apply_action (progress_builds
    (gather_resources (GameState.from_constants specConstants) specConstants).1
    specConstants) "build_house" none specConstants).1

/-- The tick-1 trace record of `simulate [6, 0] specConstants`: the tick in
which the house queued at tick 0 completes. -/
def c3Record : TraceEntry :=
  (traceOf (simulate [6, 0] specConstants)).getD 1 (.summary 0 0 0 0 0 0 0 0)

/-- The final state of `runTicks specConstants [0] 0 … []`. -/
def c8FinalState : GameState :=
  { time := 10, villagers := 1, idle_villagers := 1, food_workers := 0
    wood_workers := 0, population_cap := 4, food := 50, wood := 30
    tc_idle_time := 10, pop_block_time := 0 }

/-- The per-tick trace of `runTicks specConstants [0] 0 … []`. -/
def c8Trace : List TraceEntry :=
  [TraceEntry.step 0 0 "noop" true "" 50 30 1 1 0 0 4 0 0 []]

section ConcreteEvaluation

attribute [local semireducible] Rat.add Rat.mul Rat.sub Rat.inv

/-- Claim C1, counterexample: on the reachable state produced by tick 0 of
`simulate [6] specConstants` (the `build_house` action succeeds), a house is
under construction and `villagers = idle_villagers + food_workers +
wood_workers` fails: the builder villager is counted in `villagers` but in
none of the three pools. -/
theorem C1_counterexample :
    c1HouseState.house_progress = some 10 ∧
    c1HouseState.villagers = 1 ∧
    c1HouseState.idle_villagers = 0 ∧
    c1HouseState.food_workers = 0 ∧
    c1HouseState.wood_workers = 0 ∧
    c1HouseState.villagers ≠
      c1HouseState.idle_villagers + c1HouseState.food_workers +
        c1HouseState.wood_workers := by
  decide

/-- Claim C3, counterexample: in `simulate [6, 0] specConstants` the house
completes during tick 1 (the record shows `population_cap` raised to 8 and
one idle villager returned), yet the events of that tick's trace record are
empty: `apply_action` cleared `state.events` after `progress_builds` had
appended "house completed", so the event never reaches the trace. -/
theorem C3_counterexample :
    entryPopCap c3Record = 8 ∧
    entryIdle c3Record = 1 ∧
    entryEvents c3Record = [] ∧
    "house completed" ∉ entryEvents c3Record := by
  decide

/-- Claim C4, counterexample: the abort message for an out-of-table gene is
`unknown action index '7'` whether the offending gene sits at tick 3 or at
tick 0 — the identical message cannot name the tick index at which the gene
occurred. -/
theorem C4_counterexample :
    simulate [0, 0, 0, 7] specConstants = .error "unknown action index '7'" ∧
    simulate [7] specConstants = .error "unknown action index '7'" :=
  ⟨rfl, rfl⟩

/-- Claim C5 (confirmed): `simulate` is deterministic — two runs with equal
chromosomes and equal constants return equal fitness values and identical
trace sequences. -/
theorem C5_simulate_deterministic (c1 c2 : List ℤ) (k1 k2 : GameConstants)
    (h1 : c1 = c2) (h2 : k1 = k2) : simulate c1 k1 = simulate c2 k2 := by
  rw [h1, h2]

/-- Witness for C5 at the concrete input `([0], specConstants)`. -/
theorem C5_simulate_deterministic_witness :
    simulate [0] specConstants = simulate [0] specConstants :=
  C5_simulate_deterministic [0] [0] specConstants specConstants rfl rfl

/-- Claim C6 (confirmed): whenever a training order is in flight,
`train_villager` fails with "town center busy" — for every state, target and
constants, so regardless of the food available and of the population cap;
only `events` is cleared. -/
theorem C6_town_center_busy (s : GameState) (p : ℚ) (target : Option String)
    (c : GameConstants) (h : s.train_progress = some p) :
    apply_action s "train_villager" target c =
      ({ s with events := [] }, false, "town center busy") := by
  obtain ⟨ti, v, iv, fw, ww, pc, fo, wo, tp, hp, tc, pb, ev⟩ := s
  dsimp only at h
  subst h
  rfl

/-- Witness for C6: a state with `train_progress = some 5`, 1000 food and
plenty of population-cap headroom still gets "town center busy". -/
theorem C6_town_center_busy_witness :
    apply_action trainBusyState "train_villager" none specConstants =
      ({ trainBusyState with events := [] }, false, "town center busy") :=
  C6_town_center_busy trainBusyState 5 none specConstants rfl

/-- Claim C8 (confirmed): `simulate` returns exactly
`weights.villagers * villagers + weights.food * food + weights.wood * wood -
penalties.tc_idle_per_sec * tc_idle_time - penalties.pop_block_per_sec *
pop_block_time` on the final state (`fitnessOf`, with every lookup
defaulting a missing key to 0); the spec's scenario values yield 18/5 = 3.6,
and with the weight and penalty dictionaries empty every key defaults to 0
and the fitness is 0. -/
theorem C8_fitness_formula (chromosome : List ℤ) (c : GameConstants)
    (s : GameState) (tr : List TraceEntry)
    (h : runTicks c chromosome 0 (GameState.from_constants c) [] = .ok (s, tr)) :
    simulate chromosome c = .ok (fitnessOf s c,
      tr ++ [TraceEntry.summary tr.length s.time s.villagers (round2 s.food)
        (round2 s.wood) s.population_cap s.tc_idle_time s.pop_block_time]) ∧
    fitnessOf fitScenarioState specConstants = 18 / 5 ∧
    fitnessOf fitScenarioState
      { specConstants with fitness_weights := [], penalties := [] } = 0 := by
  refine ⟨?_, by decide, by decide⟩
  unfold simulate
  rw [h]

/-- Witness for C8 on the one-tick run `simulate [0] specConstants`. -/
theorem C8_fitness_formula_witness :
    (simulate [0] specConstants = .ok (fitnessOf c8FinalState specConstants,
      c8Trace ++ [TraceEntry.summary c8Trace.length c8FinalState.time
        c8FinalState.villagers (round2 c8FinalState.food)
        (round2 c8FinalState.wood) c8FinalState.population_cap
        c8FinalState.tc_idle_time c8FinalState.pop_block_time]) ∧
    fitnessOf fitScenarioState specConstants = 18 / 5 ∧
    fitnessOf fitScenarioState
      { specConstants with fitness_weights := [], penalties := [] } = 0) :=
  C8_fitness_formula [0] specConstants c8FinalState c8Trace (by rfl)

/-- Claim C7, counterexample: `bothCompleteState` has its training timer
exactly equal to `tick_seconds`, yet `progress_builds` raises
`idle_villagers` from 0 to 2 — not by 1 — because the in-flight house
completes in the same tick. -/
theorem C7_counterexample :
    bothCompleteState.train_progress = some specConstants.tick_seconds ∧
    (progress_builds bothCompleteState specConstants).train_progress = none ∧
    (progress_builds bothCompleteState specConstants).villagers =
      bothCompleteState.villagers + 1 ∧
    (progress_builds bothCompleteState specConstants).idle_villagers ≠
      bothCompleteState.idle_villagers + 1 := by
  decide

/-- Claim C9, counterexample: with `build_house.pop_increase = -4` the cap
decreases on house completion, so although the initial state satisfies
`villagers ≤ population_cap`, the tick-1 record of
`simulate [6, 0] negHouseConstants` shows villagers 4 against cap 1. -/
theorem C9_counterexample :
    (GameState.from_constants negHouseConstants).villagers ≤
      (GameState.from_constants negHouseConstants).population_cap ∧
    (traceOf (simulate [6, 0] negHouseConstants)).all entryCapOKb = false := by
  decide

end ConcreteEvaluation

set_option maxHeartbeats 1000000 in
/-- Claim C2 (confirmed): a failed action mutates nothing — whenever
`apply_action` returns `success = false`, the post state equals the pre
state with only `events` cleared (the clearing happens at entry, so it is
observed even on failure). -/
theorem C2_failed_action_frame (s : GameState) (a : String) (t : Option String)
    (c : GameConstants) (h : (apply_action s a t c).2.1 = false) :
    (apply_action s a t c).1 = { s with events := [] } := by
  obtain ⟨ti, v, iv, fw, ww, pc, fo, wo, tp, hp, tc, pb, ev⟩ := s
  cases tp <;> cases hp <;>
    (unfold apply_action at h ⊢; dsimp only at h ⊢;
     split_ifs at h ⊢ <;> first | rfl | exact Bool.noConfusion h)

set_option maxHeartbeats 1000000 in
/-- Claim C7 (amended): a training timer exactly equal to `tick_seconds`
completes in that same `progress_builds` tick — `train_progress` becomes
none and `villagers` increments; `idle_villagers` rises by 1 from the
completion plus 1 more if the in-flight house also completes in the same
tick; the overshoot of the timer past zero is discarded: any remaining time
`t` with `t - tick_seconds ≤ 0` produces the identical post state. -/
theorem C7_train_completion_amended (s : GameState) (c : GameConstants) (t : ℚ)
    (h : s.train_progress = some c.tick_seconds) (ht : t - c.tick_seconds ≤ 0) :
    (progress_builds s c).train_progress = none ∧
    (progress_builds s c).villagers = s.villagers + 1 ∧
    (progress_builds s c).idle_villagers =
      s.idle_villagers + 1 + (if houseCompleting s c then 1 else 0) ∧
    progress_builds { s with train_progress := some t } c = progress_builds s c := by
  obtain ⟨ti, v, iv, fw, ww, pc, fo, wo, tp, hp, tc, pb, ev⟩ := s
  dsimp only at h
  subst h
  unfold progress_builds houseCompleting
  dsimp only
  rw [if_pos ht]
  simp only [sub_self, le_refl, if_true]
  cases hp with
  | none => dsimp only; split_ifs <;> simp_all
  | some hv =>
      dsimp only
      simp only [decide_eq_true_eq]
      split_ifs <;> simp_all

/-- The "house(+n) queued" event string can never be the "house completed"
event string, whatever the printed population increase `x` is: their sixth
characters differ. -/
theorem ne_house_queued (x : String) :
    "house completed" ≠ "house(+" ++ x ++ ") queued" := by
  intro h
  have h2 := congrArg String.data h
  rw [String.data_append, String.data_append, List.append_assoc] at h2
  have h4 := congrArg (List.take 7) h2
  rw [List.take_left' (by rfl)] at h4
  exact absurd h4 (by decide)

set_option maxHeartbeats 1000000 in
/-- `apply_action` clears `events` at entry and at most appends a
"house(+n) queued" notice, so its result never carries a
"house completed" event. -/
theorem house_completed_not_in_apply (s : GameState) (a : String)
    (t : Option String) (c : GameConstants) :
    "house completed" ∉ (apply_action s a t c).1.events := by
  obtain ⟨ti, v, iv, fw, ww, pc, fo, wo, tp, hp, tc, pb, ev⟩ := s
  cases tp <;> cases hp <;>
    (unfold apply_action; dsimp only;
     split_ifs <;> simp_all [ne_house_queued])

set_option maxHeartbeats 1000000 in
/-- Claim C3 (amended): when the house timer completes during
`progress_builds`, that tick adds the configured `pop_increase` to
`population_cap`, returns the builder to idle (`idle_villagers` rises by 1,
plus 1 more if a training order completes in the same tick), and appends a
"house completed" event to `state.events`; but the event cannot appear in
that tick's trace record, because `apply_action` — which runs after
`progress_builds` and before the record is assembled — clears `events`. -/
theorem C3_house_completion_amended (s : GameState) (c : GameConstants)
    (hp0 : ℚ) (a : String) (tg : Option String)
    (hh : s.house_progress = some hp0) (hcomp : hp0 - c.tick_seconds ≤ 0) :
    (progress_builds s c).house_progress = none ∧
    (progress_builds s c).population_cap = s.population_cap +
      pyInt (dget (dgetA c.actions "build_house") "pop_increase" 0) ∧
    (progress_builds s c).idle_villagers =
      s.idle_villagers + 1 + (if trainCompleting s c then 1 else 0) ∧
    "house completed" ∈ (progress_builds s c).events ∧
    "house completed" ∉ (apply_action (progress_builds s c) a tg c).1.events := by
  refine ⟨?_, ?_, ?_, ?_, house_completed_not_in_apply _ a tg c⟩ <;>
  · obtain ⟨ti, v, iv, fw, ww, pc, fo, wo, tp, hp, tc, pb, ev⟩ := s
    dsimp only at hh
    subst hh
    unfold progress_builds
    try unfold trainCompleting
    dsimp only
    try simp only [decide_eq_true_eq]
    cases tp with
    | none =>
      try dsimp only
      rw [if_pos hcomp]
      try dsimp only
      split_ifs <;> (try simp_all [decide_eq_true_eq]) <;> linarith
    | some tv =>
      by_cases htr : tv - c.tick_seconds ≤ 0
      · simp only [if_pos htr]
        try dsimp only
        rw [if_pos hcomp]
        try dsimp only
        split_ifs <;> (try simp_all [decide_eq_true_eq]) <;> linarith
      · simp only [if_neg htr]
        try dsimp only
        rw [if_pos hcomp]
        try dsimp only
        split_ifs <;> (try simp_all [decide_eq_true_eq]) <;> linarith

/-- `balancedB` is the boolean decision of `balanced`. -/
theorem balancedB_iff (s : GameState) : balancedB s = true ↔ balanced s := by
  unfold balancedB balanced
  exact beq_iff_eq

/-- `gather_resources` touches only `food` and `wood`, so it preserves the
worker-accounting equation. -/
theorem balanced_gather (s : GameState) (c : GameConstants) (h : balanced s) :
    balanced (gather_resources s c).1 := by
  obtain ⟨ti, v, iv, fw, ww, pc, fo, wo, tp, hp, tc, pb, ev⟩ := s
  unfold gather_resources
  exact h

set_option maxHeartbeats 1000000 in
/-- `progress_builds` preserves the worker-accounting equation: a training
completion adds one villager and one idle worker, a house completion clears
the house slot and returns its builder to idle. -/
theorem balanced_progress (s : GameState) (c : GameConstants) (h : balanced s) :
    balanced (progress_builds s c) := by
  obtain ⟨ti, v, iv, fw, ww, pc, fo, wo, tp, hp, tc, pb, ev⟩ := s
  unfold progress_builds
  cases tp <;> cases hp <;> dsimp only <;>
    (repeat' (first | split_ifs | dsimp only)) <;>
    (unfold balanced houseBit at h ⊢; (try simp_all) <;> (try omega))

set_option maxHeartbeats 1000000 in
/-- `apply_action` preserves the worker-accounting equation in every branch:
assignments move workers between pools, and a successful `build_house`
moves one idle villager into the in-flight house slot. -/
theorem balanced_apply (s : GameState) (a : String) (t : Option String)
    (c : GameConstants) (h : balanced s) : balanced (apply_action s a t c).1 := by
  obtain ⟨ti, v, iv, fw, ww, pc, fo, wo, tp, hp, tc, pb, ev⟩ := s
  unfold apply_action
  cases tp <;> cases hp <;> dsimp only <;>
    (repeat' (first | split_ifs | dsimp only)) <;>
    (unfold balanced houseBit at h ⊢; (try simp_all) <;> (try omega))

/-- Claim C10 (confirmed): each of `gather_resources`, `progress_builds` and
`apply_action` preserves `villagers = idle_villagers + food_workers +
wood_workers + (1 if house_progress is not none else 0)`, for every state
satisfying it, every action name, target and constants. -/
theorem C10_house_invariant (c : GameConstants) (s : GameState) (a : String)
    (t : Option String) (h : balanced s) :
    balanced (gather_resources s c).1 ∧ balanced (progress_builds s c) ∧
    balanced (apply_action s a t c).1 :=
  ⟨balanced_gather s c h, balanced_progress s c h, balanced_apply s a t c h⟩

/-- Claim C1 (amended): on every run whose initial state satisfies the
house-aware accounting equation, every state right before and right after
`apply_action` satisfies `villagers = idle_villagers + food_workers +
wood_workers + houseBit`; so the spec's equation
`villagers = idle_villagers + food_workers + wood_workers` holds exactly at
the states with no house under construction, and is off by one — the
builder consumed by the house — while `house_progress` is not none. -/
theorem C1_worker_equation_amended (c : GameConstants)
    (acts : List (String × Option String)) (s0 : GameState) (h : balanced s0) :
    (runStates c acts s0).all balancedB = true := by
  induction acts generalizing s0 with
  | nil => rfl
  | cons hd rest ih =>
    obtain ⟨a, t⟩ := hd
    have h1 : balanced (progress_builds (gather_resources s0 c).1 c) :=
      balanced_progress _ c (balanced_gather s0 c h)
    have h2 : balanced (apply_action (progress_builds (gather_resources s0 c).1 c) a t c).1 :=
      balanced_apply _ a t c h1
    unfold runStates
    dsimp only
    rw [List.all_cons, List.all_cons, Bool.and_eq_true, Bool.and_eq_true]
    exact ⟨(balancedB_iff _).mpr h1, ⟨(balancedB_iff _).mpr h2, ih _ h2⟩⟩

/-- `gather_resources` touches neither the counters nor the timers, so it
preserves the population-cap invariant. -/
theorem capInv_gather (s : GameState) (c : GameConstants) (h : capInv s) :
    capInv (gather_resources s c).1 := by
  obtain ⟨ti, v, iv, fw, ww, pc, fo, wo, tp, hp, tc, pb, ev⟩ := s
  unfold gather_resources
  exact h

set_option maxHeartbeats 1000000 in
/-- `progress_builds` preserves the population-cap invariant when the
configured house `pop_increase` is non-negative: a training completion
consumes the strict headroom reserved at queue time, and a house completion
only raises the cap. -/
theorem capInv_progress (s : GameState) (c : GameConstants)
    (hpi : 0 ≤ pyInt (dget (dgetA c.actions "build_house") "pop_increase" 0))
    (h : capInv s) : capInv (progress_builds s c) := by
  obtain ⟨ti, v, iv, fw, ww, pc, fo, wo, tp, hp, tc, pb, ev⟩ := s
  unfold capInv at h
  dsimp only at h
  unfold progress_builds
  cases tp <;> cases hp <;> dsimp only <;>
    (repeat' (first | split_ifs | dsimp only)) <;>
    (unfold capInv; dsimp only; constructor <;> (try simp_all) <;> omega)

set_option maxHeartbeats 1000000 in
/-- `apply_action` preserves the population-cap invariant: `train_villager`
queues only under `villagers < population_cap`, and no action lowers the
cap or adds a villager. -/
theorem capInv_apply (s : GameState) (a : String) (t : Option String)
    (c : GameConstants) (h : capInv s) : capInv (apply_action s a t c).1 := by
  obtain ⟨ti, v, iv, fw, ww, pc, fo, wo, tp, hp, tc, pb, ev⟩ := s
  unfold capInv at h
  dsimp only at h
  unfold apply_action
  cases tp <;> cases hp <;> dsimp only <;>
    (repeat' (first | split_ifs | dsimp only)) <;>
    (unfold capInv; dsimp only; constructor <;> (try simp_all) <;> omega)

/-- The tick loop keeps the population-cap invariant and stamps only
cap-respecting villager counts into the trace, assuming a non-negative
configured house `pop_increase`. -/
theorem runTicks_capOK (c : GameConstants)
    (hpi : 0 ≤ pyInt (dget (dgetA c.actions "build_house") "pop_increase" 0)) :
    ∀ (chrom : List ℤ) (tick : ℕ) (s0 : GameState) (tr0 : List TraceEntry),
      capInv s0 → tr0.all entryCapOKb = true →
      ∀ s tr, runTicks c chrom tick s0 tr0 = .ok (s, tr) →
        capInv s ∧ tr.all entryCapOKb = true := by
  intro chrom
  induction chrom with
  | nil =>
    intro tick s0 tr0 hs htr s tr hrun
    unfold runTicks at hrun
    rw [Except.ok.injEq, Prod.mk.injEq] at hrun
    obtain ⟨h1, h2⟩ := hrun
    subst h1
    subst h2
    exact ⟨hs, htr⟩
  | cons g gs ih =>
    intro tick s0 tr0 hs htr s tr hrun
    unfold runTicks at hrun
    rcases hA : ACTION_LOOKUP g with _ | ⟨a, t⟩ <;> rw [hA] at hrun
    · exact absurd hrun (by simp)
    · dsimp only at hrun
      have hs3 : capInv (apply_action (progress_builds (gather_resources s0 c).1 c) a t c).1 :=
        capInv_apply _ a t c (capInv_progress _ c hpi (capInv_gather s0 c hs))
      have hs4 : capInv { (apply_action (progress_builds (gather_resources s0 c).1 c) a t c).1 with
        time := (apply_action (progress_builds (gather_resources s0 c).1 c) a t c).1.time + c.tick_seconds } := hs3
      refine ih (tick + 1) _ _ hs4 ?_ s tr hrun
      rw [List.all_append, Bool.and_eq_true]
      refine ⟨htr, ?_⟩
      simp only [List.all_cons, List.all_nil, Bool.and_true]
      exact decide_eq_true hs3.1

/-- Claim C9 (amended): provided the configured house `pop_increase` is
non-negative — so `population_cap` indeed never decreases — an initial
state with `villagers ≤ population_cap` keeps that bound after every tick:
every record of a successful run's trace shows `villagers ≤
population_cap`.  (With a negative `pop_increase` a completed house lowers
the cap below the villager count, refuting the unconditional claim.) -/
theorem C9_population_cap_amended (c : GameConstants) (chrom : List ℤ)
    (fit : ℚ) (tr : List TraceEntry)
    (hpi : 0 ≤ pyInt (dget (dgetA c.actions "build_house") "pop_increase" 0))
    (h0 : (GameState.from_constants c).villagers ≤
      (GameState.from_constants c).population_cap)
    (hrun : simulate chrom c = .ok (fit, tr)) :
    tr.all entryCapOKb = true := by
  unfold simulate at hrun
  rcases hr : runTicks c chrom 0 (GameState.from_constants c) [] with e | ⟨s, tr2⟩ <;>
    rw [hr] at hrun
  · exact absurd hrun (by simp)
  · dsimp only at hrun
    obtain ⟨hmain, htr2⟩ := runTicks_capOK c hpi chrom 0 _ []
      ⟨h0, fun hne => absurd rfl hne⟩ rfl s tr2 hr
    rw [Except.ok.injEq, Prod.mk.injEq] at hrun
    obtain ⟨h1, h2⟩ := hrun
    subst h2
    rw [List.all_append, Bool.and_eq_true]
    refine ⟨htr2, ?_⟩
    simp only [List.all_cons, List.all_nil, Bool.and_true]
    exact decide_eq_true hmain.1

/-- Claim C4 (amended): a chromosome whose first out-of-table gene `g`
follows only decodable genes aborts the whole run with the error
`unknown action index '<g>'` — the message names the offending gene value
but not the tick index (it is the same string wherever `g` occurs), no
trace is returned, and the result does not depend on the genes at or after
the offending position. -/
theorem C4_unknown_gene_amended (c : GameConstants) (pre post : List ℤ) (g : ℤ)
    (hpre : ∀ x ∈ pre, (ACTION_LOOKUP x).isSome = true)
    (hg : ACTION_LOOKUP g = none) :
    simulate (pre ++ g :: post) c =
      .error ("unknown action index '" ++ toString g ++ "'") := by
  have hs : ∀ (pre2 : List ℤ), (∀ x ∈ pre2, (ACTION_LOOKUP x).isSome = true) →
      ∀ (tick : ℕ) (s0 : GameState) (tr0 : List TraceEntry),
        runTicks c (pre2 ++ g :: post) tick s0 tr0 =
          .error ("unknown action index '" ++ toString g ++ "'") := by
    intro pre2
    induction pre2 with
    | nil =>
      intro _ tick s0 tr0
      rw [List.nil_append]
      unfold runTicks
      rw [hg]
    | cons x xs ih =>
      intro hp2 tick s0 tr0
      obtain ⟨⟨a, t⟩, hat⟩ := Option.isSome_iff_exists.mp (hp2 x (List.mem_cons_self x xs))
      rw [List.cons_append]
      unfold runTicks
      rw [hat]
      dsimp only
      exact ih (fun y hy => hp2 y (List.mem_cons_of_mem x hy)) (tick + 1) _ _
  unfold simulate
  rw [hs pre hpre 0 _ _]

section ConcreteWitnesses

attribute [local semireducible] Rat.add Rat.mul Rat.sub Rat.inv

/-- Witness for C2: `assign_food` on a state with no idle villager fails and
leaves everything but `events` unchanged. -/
theorem C2_failed_action_frame_witness :
    (apply_action bothCompleteState "assign_food" none specConstants).2.1 = false ∧
    (apply_action bothCompleteState "assign_food" none specConstants).1 =
      { bothCompleteState with events := [] } :=
  ⟨by decide, C2_failed_action_frame bothCompleteState "assign_food" none
    specConstants (by decide)⟩

/-- Witness for C7 on `bothCompleteState` (timer 10 = tick length, house at
5): training completes, villagers 3 → 4, idle 0 → 2, and remaining time 3
gives the same post state. -/
theorem C7_train_completion_amended_witness :
    (progress_builds bothCompleteState specConstants).train_progress = none ∧
    (progress_builds bothCompleteState specConstants).villagers =
      bothCompleteState.villagers + 1 ∧
    (progress_builds bothCompleteState specConstants).idle_villagers =
      bothCompleteState.idle_villagers + 1 +
        (if houseCompleting bothCompleteState specConstants then 1 else 0) ∧
    progress_builds { bothCompleteState with train_progress := some 3 }
      specConstants = progress_builds bothCompleteState specConstants :=
  C7_train_completion_amended bothCompleteState specConstants 3
    (by decide) (by decide)

/-- Witness for C3 on `bothCompleteState` (house timer 5, tick 10): the
house completes, the cap grows by 4, the event reaches `state.events` and
is wiped from the post-`apply_action` events. -/
theorem C3_house_completion_amended_witness :
    (progress_builds bothCompleteState specConstants).house_progress = none ∧
    (progress_builds bothCompleteState specConstants).population_cap =
      bothCompleteState.population_cap +
        pyInt (dget (dgetA specConstants.actions "build_house") "pop_increase" 0) ∧
    (progress_builds bothCompleteState specConstants).idle_villagers =
      bothCompleteState.idle_villagers + 1 +
        (if trainCompleting bothCompleteState specConstants then 1 else 0) ∧
    "house completed" ∈ (progress_builds bothCompleteState specConstants).events ∧
    "house completed" ∉ (apply_action (progress_builds bothCompleteState
      specConstants) "noop" none specConstants).1.events :=
  C3_house_completion_amended bothCompleteState specConstants 5 "noop" none
    (by decide) (by decide)

/-- Witness for C10 on the accounting-balanced initial state of
`specConstants`, with the `assign_food` action. -/
theorem C10_house_invariant_witness :
    balanced (gather_resources (GameState.from_constants specConstants) specConstants).1 ∧
    balanced (progress_builds (GameState.from_constants specConstants) specConstants) ∧
    balanced (apply_action (GameState.from_constants specConstants) "assign_food"
      none specConstants).1 :=
  C10_house_invariant specConstants (GameState.from_constants specConstants)
    "assign_food" none (by decide)

/-- Witness for C1 (amended) on the two-tick build-house run of
`specConstants`. -/
theorem C1_worker_equation_amended_witness :
    (runStates specConstants [("build_house", none), ("noop", none)]
      (GameState.from_constants specConstants)).all balancedB = true :=
  C1_worker_equation_amended specConstants [("build_house", none), ("noop", none)]
    (GameState.from_constants specConstants) (by decide)

/-- Witness for C9 (amended) on the one-tick run `simulate [0]
specConstants`. -/
theorem C9_population_cap_amended_witness :
    ([TraceEntry.step 0 0 "noop" true "" 50 30 1 1 0 0 4 0 0 [],
      TraceEntry.summary 1 10 1 50 30 4 10 0] : List TraceEntry).all
      entryCapOKb = true :=
  C9_population_cap_amended specConstants [0] (4 / 5)
    [TraceEntry.step 0 0 "noop" true "" 50 30 1 1 0 0 4 0 0 [],
      TraceEntry.summary 1 10 1 50 30 4 10 0]
    (by decide) (by decide) (by rfl)

/-- Witness for C4 (amended): gene 9 at tick 1, followed by a decodable
gene, aborts with the gene-naming error. -/
theorem C4_unknown_gene_amended_witness :
    simulate ([0] ++ 9 :: [5]) specConstants =
      .error ("unknown action index '" ++ toString (9 : ℤ) ++ "'") :=
  C4_unknown_gene_amended specConstants [0] [5] 9 (by decide) (by decide)

end ConcreteWitnesses
